import Mathlib

/-!
Verification of the insights/analytics computation engine of the
fb-comment-analyzer repository (backend.py), against its natural-language
specification.  The Python functions are shallowly embedded: pandas
DataFrames become a `Frame` structure whose columns are `Option (List _)`
(`none` = column absent), floats become exact rationals (`ℚ`) with `none`
standing for NaN where NaN can arise, timestamps become seconds-since-epoch
integers with `none` standing for NaT, and code that can raise becomes
`Except String`.
-/

attribute [local semireducible] Rat.add Rat.mul Rat.inv Rat.sub

namespace FB

/-- Round a rational to the nearest integer, ties to even — the semantics of
Python's built-in `round` (banker's rounding), used by `round(x, d)` in
backend.py. -/
def roundHalfEvenInt (q : ℚ) : ℤ :=
  let f : ℤ := ⌊q⌋
  let frac : ℚ := q - f
  if frac < 1/2 then f
  else if 1/2 < frac then f + 1
  else if Even f then f else f + 1

/-- Python's `round(q, d)`: round to `d` decimal places, ties to even. -/
def pyRound (q : ℚ) (d : ℕ) : ℚ :=
  (roundHalfEvenInt (q * (10 : ℚ) ^ d) : ℚ) / (10 : ℚ) ^ d

/-- Mean of a list of rationals; `none` models the NaN that pandas produces
for the mean of an empty series. -/
def meanQ (l : List ℚ) : Option ℚ :=
  if l.length = 0 then none else some (l.sum / l.length)

/-- Insertion of one element into a list sorted by a boolean `le`. -/
def insertBy {α : Type} (le : α → α → Bool) (a : α) : List α → List α
  | [] => [a]
  | b :: bs => if le a b then a :: b :: bs else b :: insertBy le a bs

/-- Stable insertion sort by a boolean `le`; models Python/pandas sorts on
the duplicate-free keys exercised here. -/
def sortBy {α : Type} (le : α → α → Bool) : List α → List α
  | [] => []
  | a :: as => insertBy le a (sortBy le as)

/-- Median as pandas computes it (average of the two middle elements of the
sorted values for even length); callers in backend.py guard the empty case
themselves, so the empty list is given value 0 here and never relied on. -/
def medianQ (l : List ℚ) : ℚ :=
  let s := sortBy (fun a b => decide (a ≤ b)) l
  let n := s.length
  if n = 0 then 0
  else if n % 2 = 1 then s.getD (n / 2) 0
  else (s.getD (n / 2 - 1) 0 + s.getD (n / 2) 0) / 2

/-- The 0.75 quantile with linear interpolation (pandas `Series.quantile`);
`none` models the NaN returned for an empty series. -/
def quantile75 (l : List ℚ) : Option ℚ :=
  let s := sortBy (fun a b => decide (a ≤ b)) l
  match s.length with
  | 0 => none
  | n =>
    let pos : ℚ := (3 : ℚ) * (n - 1) / 4
    let lo : ℕ := (⌊pos⌋).toNat
    let frac : ℚ := pos - (lo : ℚ)
    some (s.getD lo 0 + frac * (s.getD (lo + 1) (s.getD lo 0) - s.getD lo 0))

/-! ## Tokenizer (backend.py `tokenize`, `URL_RE`, `WORD_RE`, stopword sets) -/

/-- Word characters of `WORD_RE = [#@]?\w+`; ASCII approximation of `\w`
(the claims' inputs are ASCII; Bengali text only occurs in the stopword
set, which is matched whole-token). -/
def isWordChar (c : Char) : Bool :=
  c.isAlphanum || c = '_'

/-- Matches the `https?://` alternative of `URL_RE` at the head of the
character list (the text is already lowercased when the pattern runs). -/
def startsHttp : List Char → Bool
  | 'h' :: 't' :: 't' :: 'p' :: ':' :: '/' :: '/' :: _ => true
  | 'h' :: 't' :: 't' :: 'p' :: 's' :: ':' :: '/' :: '/' :: _ => true
  | _ => false

/-- Matches the `www\.` alternative of `URL_RE` at the head of the list. -/
def startsWww : List Char → Bool
  | 'w' :: 'w' :: 'w' :: '.' :: _ => true
  | _ => false

/-- URL_RE.sub("", text): delete every `https?://\S+|www\.\S+` match,
scanning left to right; `\S+` consumes to the next whitespace.  The first
argument is recursion fuel (any value above the list length is enough; the
scan consumes at least one character per step), keeping the definition
structurally recursive. -/
def stripUrlsF : ℕ → List Char → List Char
  | 0, _ => []
  | _ + 1, [] => []
  | fuel + 1, c :: cs =>
    if startsHttp (c :: cs) || startsWww (c :: cs) then
      stripUrlsF fuel (cs.dropWhile (fun d => !d.isWhitespace))
    else
      c :: stripUrlsF fuel cs

/-- URL stripping with enough fuel for the whole text. -/
def stripUrls (l : List Char) : List Char :=
  stripUrlsF (l.length + 1) l

/-- Helper for `findTokens`: the next character exists and is a word
character (so `[#@]?\w+` can match with the optional prefix present). -/
def headIsWord : List Char → Bool
  | [] => false
  | d :: _ => isWordChar d

/-- Findall of `WORD_RE = [#@]?\w+`: maximal word-character runs, optionally
prefixed by `#` or `@` (the prefix only matches when a word character
follows, exactly as the regex requires at least one `\w`).  Fuel-based for
the same reason as `stripUrlsF`. -/
def findTokensF : ℕ → List Char → List (List Char)
  | 0, _ => []
  | _ + 1, [] => []
  | fuel + 1, c :: cs =>
    if (c = '#' || c = '@') && headIsWord cs then
      (c :: cs.takeWhile isWordChar) :: findTokensF fuel (cs.dropWhile isWordChar)
    else if isWordChar c then
      (c :: cs.takeWhile isWordChar) :: findTokensF fuel (cs.dropWhile isWordChar)
    else findTokensF fuel cs

/-- Token scan with enough fuel for the whole text. -/
def findTokens (l : List Char) : List (List Char) :=
  findTokensF (l.length + 1) l

/-- EN_STOP of backend.py: the words of its source string (the string is
materialised as an explicit word list so membership evaluates inside the
kernel). -/
def EN_STOP : List String :=
  ["a", "an", "and", "the", "of", "to", "in", "for", "on", "at", "by",
   "with", "about", "between", "into", "over", "from", "as", "is", "are",
   "was", "were", "be", "been", "being", "than", "then", "that", "this",
   "these", "those", "there", "here", "it", "its", "it\x27s", "their",
   "theirs", "our", "ours", "your", "yours", "i", "me", "my", "mine", "we",
   "us", "you", "he", "him", "his", "she", "her", "they", "them", "who",
   "whom", "which", "what", "why", "how", "not", "no", "nor", "so", "such",
   "too", "very", "can", "will", "just", "do", "does", "did", "have",
   "has", "had", "up", "down", "out", "more", "most", "other", "some",
   "any", "each", "few", "own", "same", "than", "s", "t", "don", "should",
   "now"]

/-- BN_STOP of backend.py: the words of its source string, materialised as
an explicit word list. -/
def BN_STOP : List String :=
  ["আমি", "আমরা", "তুমি", "আপনি", "তারা", "সে", "এই", "সেই", "ওই", "কোন",
   "কি", "বা", "আর", "এবং", "তবে", "কিন্তু", "তাই", "শুধু", "যেন", "যেই",
   "যে", "যদি", "যখন", "তবে", "যদিও", "যা", "যার", "যারাই", "যারা",
   "যেখানে", "যেখানে", "ছিল", "ছিলাম", "হবে", "করেছি", "করব", "করি",
   "করা", "করে", "করছেন", "করছেনা", "তো", "না", "নয়", "হবে", "না", "হয়",
   "হচ্ছে", "আছে", "ছিলেন", "হতে", "হতে", "পারে", "পর্যন্ত", "খুব",
   "অনেক", "আরো", "আরও", "আবার", "যেন", "তাহলে", "এখানে", "সেখানে",
   "তাদের", "সঙ্গে", "জন্য", "কারণ", "যার", "ফলে", "উপর", "নিচ", "আগে",
   "পরে", "মধ্যে", "আমার", "তোমার", "তার", "তাদের", "তোমাদের", "আমাদের",
   "আরেকটা", "কিছু", "কিছুটা", "কেউ", "কোনটা", "কোনগুলো", "তাহলে", "তবে",
   "তাই", "দিয়ে", "দিয়ে", "গেছে", "যায়", "হয়েই", "হল", "হলো", "হওয়া",
   "হওয়ার", "ছিলেন", "নই", "ছিলাম", "নাও", "নেন", "নেওয়া", "নেওয়া",
   "হয়েছে", "হয়নি", "কেন", "কিভাবে", "কেনো", "কেনও", "ইত্যাদি"]

/-- backend.py `tokenize`: lowercase, strip URLs, find `[#@]?\w+` tokens,
keep hashtags/mentions unconditionally, drop stopwords, pure digits and
tokens shorter than 3 characters. -/
def tokenize (text : String) : List String :=
  let cleaned := stripUrls (text.data.map Char.toLower)
  let toks := findTokens cleaned
  (toks.filter (fun cs =>
    match cs with
    | '#' :: _ => true
    | '@' :: _ => true
    | _ =>
      if EN_STOP.contains (String.mk cs) || BN_STOP.contains (String.mk cs) then
        false
      else if cs.all Char.isDigit || cs.length < 3 then false
      else true)).map (fun cs => String.mk cs)

/-- Counter-style counting: first-appearance order, incrementing counts,
exactly the insertion semantics of `collections.Counter` updates. -/
def counterAdd {α : Type} [DecidableEq α] (acc : List (α × ℕ)) (t : α) :
    List (α × ℕ) :=
  if acc.any (fun p => p.1 = t) then
    acc.map (fun p => if p.1 = t then (p.1, p.2 + 1) else p)
  else acc ++ [(t, 1)]

/-- Count occurrences of each value of a list, Counter-style. -/
def counterOf {α : Type} [DecidableEq α] (ts : List α) : List (α × ℕ) :=
  ts.foldl counterAdd []

/-- Counter.most_common(k): stable sort on descending count (ties keep
first-appearance order), truncated to `k`. -/
def mostCommon {α : Type} [DecidableEq α] (c : List (α × ℕ)) (k : ℕ) :
    List (α × ℕ) :=
  (sortBy (fun a b => decide (b.2 ≤ a.2)) c).take k

/-- pandas `value_counts()`: counts sorted on descending count. -/
def sortedCounts {α : Type} [DecidableEq α] (l : List α) : List (α × ℕ) :=
  sortBy (fun a b => decide (b.2 ≤ a.2)) (counterOf l)

/-- compute_insights.top_keywords: Counter over the tokenization of every
text in the series, then most_common(k). -/
def top_keywords (texts : List String) (k : ℕ) : List (String × ℕ) :=
  mostCommon (counterOf (texts.flatMap tokenize)) k

/-! ## Data model: a pandas DataFrame of comments

A column is `Option (List _)`: `none` when the column is absent from the
table.  Timestamps are seconds since the epoch, `none` modelling values
that `pd.to_datetime(..., errors="coerce")` turns into NaT.  `n` is the
number of rows; well-formed frames have every present column of length
`n` (`Frame.wf`). -/
structure Frame where
  n : ℕ
  user_id : Option (List String) := none
  user_name : Option (List String) := none
  comment_text : Option (List String) := none
  sentiment : Option (List String) := none
  emotion : Option (List String) := none
  language : Option (List (Option String)) := none
  created_time : Option (List (Option ℤ)) := none
  like_count : Option (List ℤ) := none
  love_count : Option (List ℤ) := none
  haha_count : Option (List ℤ) := none
  wow_count : Option (List ℤ) := none
  sad_count : Option (List ℤ) := none
  angry_count : Option (List ℤ) := none
  care_count : Option (List ℤ) := none
  reply_count : Option (List ℤ) := none
  total_reactions : Option (List ℤ) := none
  engagement_score : Option (List ℤ) := none
  emoji_count : Option (List ℤ) := none
  permalink_url : Option (List String) := none
deriving Repr, DecidableEq

/-- Length check for an optional column: absent columns are fine, present
ones must have exactly `n` entries. -/
def olen {α : Type} (n : ℕ) (o : Option (List α)) : Bool :=
  o.elim true (fun l => l.length == n)

/-- Well-formedness of a frame: every present column has `n` rows. -/
def Frame.wf (df : Frame) : Bool :=
  olen df.n df.user_id && olen df.n df.user_name && olen df.n df.comment_text &&
  olen df.n df.sentiment && olen df.n df.emotion && olen df.n df.language &&
  olen df.n df.created_time && olen df.n df.like_count && olen df.n df.love_count &&
  olen df.n df.haha_count && olen df.n df.wow_count && olen df.n df.sad_count &&
  olen df.n df.angry_count && olen df.n df.care_count && olen df.n df.reply_count &&
  olen df.n df.total_reactions && olen df.n df.engagement_score &&
  olen df.n df.emoji_count && olen df.n df.permalink_url

/-- Row-wise addition of two integer columns (`pandas` aligned addition). -/
def addCols (a b : List ℤ) : List ℤ :=
  List.zipWith (· + ·) a b

/-- A missing column read with default zero: `if c not in df.columns:
df[c] = 0` materialises a zero column of `n` rows. -/
def fillZero (n : ℕ) (o : Option (List ℤ)) : List ℤ :=
  o.getD (List.replicate n 0)

/-- Row-wise `df[REACTION_COLS].sum(axis=1)` over the seven reaction
columns after zero-filling the missing ones. -/
def reactionSum (df : Frame) : List ℤ :=
  addCols (fillZero df.n df.like_count)
    (addCols (fillZero df.n df.love_count)
      (addCols (fillZero df.n df.haha_count)
        (addCols (fillZero df.n df.wow_count)
          (addCols (fillZero df.n df.sad_count)
            (addCols (fillZero df.n df.angry_count)
              (fillZero df.n df.care_count))))))

/-- backend.py `ensure_engagement_columns`: zero-fill the missing reaction
columns, recompute `total_reactions` as their row-wise sum, zero-fill a
missing `reply_count`, and recompute `engagement_score` as
`total_reactions + reply_count`. -/
def ensure_engagement_columns (df : Frame) : Frame :=
  let total := reactionSum df
  let reply := fillZero df.n df.reply_count
  { df with
    like_count := some (fillZero df.n df.like_count)
    love_count := some (fillZero df.n df.love_count)
    haha_count := some (fillZero df.n df.haha_count)
    wow_count := some (fillZero df.n df.wow_count)
    sad_count := some (fillZero df.n df.sad_count)
    angry_count := some (fillZero df.n df.angry_count)
    care_count := some (fillZero df.n df.care_count)
    total_reactions := some total
    reply_count := some reply
    engagement_score := some (addCols total reply) }

/-- A table already carrying the normalizer's guarantees: all seven
reaction columns and `reply_count` present, and `total_reactions` /
`engagement_score` consistent with them. -/
def Frame.normalized (df : Frame) : Bool :=
  df.like_count.isSome && df.love_count.isSome && df.haha_count.isSome &&
  df.wow_count.isSome && df.sad_count.isSome && df.angry_count.isSome &&
  df.care_count.isSome && df.reply_count.isSome &&
  (df.total_reactions == some (reactionSum df)) &&
  (df.engagement_score == some (addCols (reactionSum df) (fillZero df.n df.reply_count)))

/-! ## Insight Aggregator (backend.py `compute_insights`) -/

/-- Read a required column; pandas raises KeyError on `df[name]` when the
column is absent. -/
def colE {α : Type} (o : Option (List α)) (name : String) :
    Except String (List α) :=
  match o with
  | some l => Except.ok l
  | none => Except.error ("KeyError: " ++ name)

/-- Count of distinct values, pandas `nunique()`. -/
def nunique {α : Type} [DecidableEq α] (l : List α) : ℕ :=
  l.dedup.length

/-- Normalisation applied to the language column:
`fillna("unknown").astype(str).str.lower().replace({"bn": "bangla", "en": "english"})`. -/
def langNorm (o : Option String) : String :=
  let s := (o.getD "unknown").toLower
  if s = "bn" then "bangla" else if s = "en" then "english" else s

/-- Hour-of-day (UTC) of an epoch-seconds timestamp, pandas `ts.dt.hour`. -/
def hourOf (t : ℤ) : ℤ :=
  (t.fdiv 3600) % 24

/-- Calendar-day index (UTC) of an epoch-seconds timestamp, modelling
`ts.dt.date` as the number of whole days since the epoch. -/
def dayOf (t : ℤ) : ℤ :=
  t.fdiv 86400

/-- Minimum of an integer list, `none` for the empty list (pandas NaT). -/
def listMin? (l : List ℤ) : Option ℤ :=
  l.foldl (fun acc x => match acc with
    | none => some x
    | some m => some (min m x)) none

/-- Maximum of an integer list, `none` for the empty list (pandas NaT). -/
def listMax? (l : List ℤ) : Option ℤ :=
  l.foldl (fun acc x => match acc with
    | none => some x
    | some m => some (max m x)) none

/-- One comment row as the ranked-list code reads it (`pick_rows`). -/
structure RowView where
  user : String
  text : String
  eng : ℤ
  react : ℤ
  emotion : String
  link : String
deriving Repr, DecidableEq

/-- Internal row record carrying every per-row field the ranked lists and
risk query touch. -/
structure Rec where
  user : String
  text : String
  sentiment : String
  emotion : String
  react : ℤ
  eng : ℤ
  haha : ℤ
  link : String
deriving Repr, DecidableEq

/-- Zip the relevant columns into row records (pandas `iterrows`). -/
def buildRecs : List String → List String → List String → List String →
    List ℤ → List ℤ → List ℤ → List String → List Rec
  | u :: us, t :: ts, s :: ss, e :: es, r :: rs, g :: gs, h :: hs, l :: ls =>
    { user := u, text := t, sentiment := s, emotion := e,
      react := r, eng := g, haha := h, link := l } :: buildRecs us ts ss es rs gs hs ls
  | _, _, _, _, _, _, _, _ => []

/-- compute_insights.pick_rows: project the first `k` rows of a slice. -/
def pick_rows (rs : List Rec) (k : ℕ) : List RowView :=
  (rs.take k).map (fun r =>
    { user := r.user, text := r.text, eng := r.eng, react := r.react,
      emotion := r.emotion, link := r.link })

/-- The Insight Bundle compute_insights returns.  Floats are exact
rationals; `emoji_pct` is `none` when the pandas computation yields NaN
(mean of an empty series); timeline labels are day indices instead of
formatted date strings. -/
structure Insights where
  total_comments : ℕ
  unique_users : ℕ
  total_reactions : ℤ
  avg_reactions_per_comment : ℚ
  median_reactions : ℚ
  median_engagement : ℚ
  emoji_pct : Option ℚ
  language_diversity : ℕ
  positivity_pct : ℚ
  safety_score : ℚ
  advocacy : ℚ
  best_hour : Option ℤ
  velocity_cph : ℚ
  top_emotion : String
  top_keyword : String
  sentiment_values : List ℤ
  emotions_labels : List String
  emotions_values : List ℕ
  languages_labels : List String
  languages_values : List ℕ
  reactions_labels : List String
  reactions_values : List ℤ
  timeline_labels : List ℤ
  timeline_values : List ℕ
  hourly_labels : List ℕ
  hourly_pos : List ℕ
  hourly_neg : List ℕ
  hourly_neu : List ℤ
  keywords_all : List (String × ℕ)
  keywords_pos : List (String × ℕ)
  keywords_neg : List (String × ℕ)
  examples_positive : List RowView
  examples_negative : List RowView
  top_haha : List RowView
  top_reacted : List RowView
  top_engaged : List RowView
  risks : List RowView
deriving Repr, DecidableEq

/-- backend.py `compute_insights`: the full KPI bundle.  Column reads that
raise KeyError in pandas become `Except.error`; the `positivity_ratio`
KPI is carried by the `positivity_pct` field. -/
def compute_insights (df : Frame) : Except String Insights := do
  let total := df.n
  let uu ←
    match df.user_id with
    | some l => pure (nunique l)
    | none => do
      let un ← colE df.user_name "user_name"
      pure (nunique un)
  let totCol ← colE df.total_reactions "total_reactions"
  let engCol ← colE df.engagement_score "engagement_score"
  let total_react : ℤ := totCol.sum
  let avg_react : ℚ :=
    if total ≠ 0 then pyRound ((total_react : ℚ) / total) 2 else 0
  let med_react : ℚ :=
    if total ≠ 0 then medianQ (totCol.map (fun x => (x : ℚ))) else 0
  let med_eng : ℚ :=
    if total ≠ 0 then medianQ (engCol.map (fun x => (x : ℚ))) else 0
  let emoji_pct : Option ℚ :=
    match df.emoji_count with
    | none => some 0
    | some l =>
      (meanQ (l.map (fun x => if 0 < x then (1 : ℚ) else 0))).map
        (fun m => pyRound (100 * m) 1)
  let langCol ← colE df.language "language"
  let langs := langCol.map langNorm
  let language_diversity := nunique langs
  let sentCol ← colE df.sentiment "sentiment"
  let pos : ℕ := sentCol.countP (fun s => s = "positive")
  let neg : ℕ := sentCol.countP (fun s => s = "negative")
  let neu : ℤ := (total : ℤ) - pos - neg
  let positivity : ℚ := pyRound (100 * (pos : ℚ) / (max 1 (pos + neg) : ℕ)) 1
  let emoCol ← colE df.emotion "emotion"
  let top_emotion : String :=
    if emoCol ≠ [] then ((sortedCounts emoCol).headD ("neutral", 0)).1 else "neutral"
  let emoTop := (sortedCounts emoCol).take 7
  let langTop := (sortedCounts langs).take 6
  let likeCol ← colE df.like_count "like_count"
  let loveCol ← colE df.love_count "love_count"
  let hahaCol ← colE df.haha_count "haha_count"
  let wowCol ← colE df.wow_count "wow_count"
  let sadCol ← colE df.sad_count "sad_count"
  let angryCol ← colE df.angry_count "angry_count"
  let careCol ← colE df.care_count "care_count"
  let react_values : List ℤ :=
    [likeCol.sum, loveCol.sum, hahaCol.sum, wowCol.sum, sadCol.sum,
     angryCol.sum, careCol.sum]
  let (tlLabels, tlValues, best_hour, velocity, hLabels, hPos, hNeg, hNeu) :=
    match df.created_time with
    | none =>
      (([] : List ℤ), ([] : List ℕ), (none : Option ℤ), (0 : ℚ),
       ([] : List ℕ), ([] : List ℕ), ([] : List ℕ), ([] : List ℤ))
    | some ct =>
      let valid := ct.filterMap id
      let byDay := sortBy (fun (a b : ℤ × ℕ) => decide (a.1 ≤ b.1)) (counterOf (valid.map dayOf))
      let bh : Option ℤ :=
        if valid ≠ [] then some (((sortedCounts (valid.map hourOf)).headD (0, 0)).1)
        else none
      let hours : ℚ :=
        match listMin? valid, listMax? valid with
        | some tmin, some tmax => max 1 (((tmax - tmin : ℤ) : ℚ) / 3600)
        | _, _ => 1
      let vel : ℚ := pyRound ((total : ℚ) / hours) 2
      let hoursAll := List.range 24
      let sentHour := List.zip sentCol ct
      let cntP := fun (h : ℕ) => (sentHour.countP (fun (p : String × Option ℤ) =>
        p.1.startsWith "pos" && p.2.elim false (fun t => hourOf t == (h : ℤ))))
      let cntN := fun (h : ℕ) => (sentHour.countP (fun (p : String × Option ℤ) =>
        p.1.startsWith "neg" && p.2.elim false (fun t => hourOf t == (h : ℤ))))
      let cntT := fun (h : ℕ) => (sentHour.countP (fun (p : String × Option ℤ) =>
        p.2.elim false (fun t => hourOf t == (h : ℤ))))
      (byDay.map (fun (p : ℤ × ℕ) => p.1), byDay.map (fun (p : ℤ × ℕ) => p.2), bh, vel,
       hoursAll, hoursAll.map cntP, hoursAll.map cntN,
       hoursAll.map (fun h => (cntT h : ℤ) - cntP h - cntN h))
  let textCol ← colE df.comment_text "comment_text"
  let keywords_all := top_keywords textCol 15
  let sentText := List.zip sentCol textCol
  let keywords_pos :=
    top_keywords ((sentText.filter (fun (p : String × String) => p.1.startsWith "pos")).map (fun p => p.2)) 10
  let keywords_neg :=
    top_keywords ((sentText.filter (fun (p : String × String) => p.1.startsWith "neg")).map (fun p => p.2)) 10
  let top_keyword := match keywords_all with
    | [] => ""
    | p :: _ => p.1
  let userCol ← colE df.user_name "user_name"
  let linkCol : List String := df.permalink_url.getD (List.replicate df.n "")
  let recs := buildRecs userCol textCol sentCol emoCol totCol engCol hahaCol linkCol
  let top_haha := pick_rows
    ((sortBy (fun (a b : Rec) => decide (b.haha ≤ a.haha)) recs).filter (fun r => decide (0 < r.haha))) 5
  let top_reacted := pick_rows (sortBy (fun (a b : Rec) => decide (b.react ≤ a.react)) recs) 5
  let top_engaged := pick_rows (sortBy (fun (a b : Rec) => decide (b.eng ≤ a.eng)) recs) 5
  let top_pos := pick_rows
    (sortBy (fun (a b : Rec) => decide (b.eng ≤ a.eng)) (recs.filter (fun r => r.sentiment.startsWith "pos"))) 3
  let top_neg := pick_rows
    (sortBy (fun (a b : Rec) => decide (b.eng ≤ a.eng)) (recs.filter (fun r => r.sentiment.startsWith "neg"))) 3
  let q75 := quantile75 (engCol.map (fun x => (x : ℚ)))
  let risks := pick_rows
    (sortBy (fun (a b : Rec) => decide (b.eng ≤ a.eng))
      (recs.filter (fun r =>
        r.sentiment.startsWith "neg" &&
        (q75.elim false (fun q => decide (q ≤ (r.eng : ℚ))))))) 5
  let safety : ℚ := max 0 (100 - pyRound (100 * (neg : ℚ) / (max 1 total : ℕ)) 1)
  let advocacy : ℚ := pyRound (100 * (pos : ℚ) / (max 1 total : ℕ)) 1
  pure {
    total_comments := total
    unique_users := uu
    total_reactions := total_react
    avg_reactions_per_comment := avg_react
    median_reactions := med_react
    median_engagement := med_eng
    emoji_pct := emoji_pct
    language_diversity := language_diversity
    positivity_pct := positivity
    safety_score := safety
    advocacy := advocacy
    best_hour := best_hour
    velocity_cph := velocity
    top_emotion := top_emotion
    top_keyword := top_keyword
    sentiment_values := [(pos : ℤ), (neg : ℤ), max 0 neu]
    emotions_labels := emoTop.map (fun p => p.1)
    emotions_values := emoTop.map (fun p => p.2)
    languages_labels := langTop.map (fun p => p.1)
    languages_values := langTop.map (fun p => p.2)
    reactions_labels := ["LIKE", "LOVE", "HAHA", "WOW", "SAD", "ANGRY", "CARE"]
    reactions_values := react_values
    timeline_labels := tlLabels
    timeline_values := tlValues
    hourly_labels := hLabels
    hourly_pos := hPos
    hourly_neg := hNeg
    hourly_neu := hNeu
    keywords_all := keywords_all
    keywords_pos := keywords_pos
    keywords_neg := keywords_neg
    examples_positive := top_pos
    examples_negative := top_neg
    top_haha := top_haha
    top_reacted := top_reacted
    top_engaged := top_engaged
    risks := risks }

/-! ## Benchmark/History tracker (backend.py `compute_benchmarks`) -/

/-- One persisted history entry: `{"ts": ..., "kpis": {...}}`. -/
structure Snap where
  ts : ℤ
  kpis : List (String × ℚ)
deriving Repr, DecidableEq

/-- Dictionary lookup `x.get(m)` on a KPI mapping. -/
def lookupQ (kpis : List (String × ℚ)) (m : String) : Option ℚ :=
  (kpis.find? (fun p => p.1 = m)).map (fun p => p.2)

/-- Python `hist[post_id] = v`: overwriting an existing key keeps its
original position in the dict's insertion order; a new key is appended. -/
def dictUpsert (hist : List (String × Snap)) (k : String) (v : Snap) :
    List (String × Snap) :=
  if hist.any (fun p => p.1 = k) then
    hist.map (fun p => if p.1 = k then (k, v) else p)
  else hist ++ [(k, v)]

/-- The `items` list of compute_benchmarks:
`[v["kpis"] for _, v in list(hist.items())[-20:] if ... and v.get("kpis")]`
— the last 20 entries in key-insertion order whose kpis mapping is
non-empty. -/
def benchItems (hist : List (String × Snap)) : List (List (String × ℚ)) :=
  ((hist.drop (hist.length - 20)).filter (fun p => decide (p.2.kpis ≠ []))).map
    (fun p => p.2.kpis)

/-- The sorted historical values of one metric:
`sorted([x.get(metric, 0) for x in items if metric in x])`. -/
def metricVals (items : List (List (String × ℚ))) (m : String) : List ℚ :=
  sortBy (fun a b => decide (a ≤ b)) (items.filterMap (fun x => lookupQ x m))

/-- compute_benchmarks.pct_of: percentile of `value` among the historical
values of metric `m`; `None` when no history carries the metric. -/
def pct_of (items : List (List (String × ℚ))) (m : String) (value : ℚ) :
    Option ℚ :=
  let vals := metricVals items m
  if vals = [] then none
  else some (pyRound (100 * (vals.countP (fun v => decide (v ≤ value)) : ℚ) / vals.length) 1)

/-- The fixed metric subset compute_benchmarks ranks. -/
def benchMetrics : List String :=
  ["advocacy", "safety_score", "avg_reactions_per_comment", "total_comments"]

/-- Result of compute_benchmarks. -/
structure BenchResult where
  percentiles : List (String × Option ℚ)
  count_history : ℕ
deriving Repr, DecidableEq

/-- backend.py `compute_benchmarks`, with the file-backed history made an
explicit argument/result: overwrite the snapshot for `post_id`, then rank
each benchmark metric's current value against the trailing-20 items. -/
def compute_benchmarks (hist : List (String × Snap)) (post_id : String)
    (now : ℤ) (kpis : List (String × ℚ)) :
    List (String × Snap) × BenchResult :=
  let h := dictUpsert hist post_id { ts := now, kpis := kpis }
  let items := benchItems h
  (h, { percentiles :=
          benchMetrics.map (fun m => (m, pct_of items m ((lookupQ kpis m).getD 0)))
        count_history := items.length })

/-! ## Time-Window Analytics Engine (backend.py `_time_analytics`)

Bucket labels are bucket-start epoch seconds (the code formats them with
strftime); `'15min'` and `'H'` become bucket widths 900 and 3600 seconds
(both divide one day, so flooring epoch seconds to a multiple of the width
reproduces the pandas grouper's day-anchored bin edges).  The float
`np.polyfit`/`np.log`/`np.exp` numerics of the decay fit are abstracted as
the parameters `polyfitLog` (slope and intercept of the least-squares line
through log-counts) and `expQ`; no claim depends on their values. -/

/-- Rolling window (trailing 3 buckets, the current one included) mean and
sample variance (`ddof=1`, matching `Series.rolling(3).std()`). -/
def windowStats (s : List ℚ) (i : ℕ) : ℚ × ℚ :=
  let x0 := s.getD (i - 2) 0
  let x1 := s.getD (i - 1) 0
  let x2 := s.getD i 0
  let mu := (x0 + x1 + x2) / 3
  (mu, ((x0 - mu) ^ 2 + (x1 - mu) ^ 2 + (x2 - mu) ^ 2) / 2)

/-- Indices flagged as spikes: positions with a full 3-bucket window
(`min_periods=3`), non-zero rolling std (`sd.replace(0, nan)` makes the
zero-std z-score NaN, which `dropna` discards), z-score at least 2.0 and raw
count at least 2.  Over exact rationals `z ≥ 2` with `sd > 0` is expressed
square-free as `0 ≤ x - mu ∧ 4·var ≤ (x - mu)²`. -/
def spikeFlags (s : List ℚ) : List ℕ :=
  (List.range s.length).filter (fun i =>
    decide (2 ≤ i) &&
    (let st := windowStats s i
     let dev := s.getD i 0 - st.1
     decide (st.2 ≠ 0) && decide (0 ≤ dev) && decide (4 * st.2 ≤ dev ^ 2) &&
     decide (2 ≤ s.getD i 0)))

/-- Squared z-score of position `i`, used to order reported spikes (on the
flagged positions the z-score is positive, so ordering by its square is the
code's ordering by `z` descending). -/
def zsqAt (s : List ℚ) (i : ℕ) : ℚ :=
  let st := windowStats s i
  (s.getD i 0 - st.1) ^ 2 / st.2

/-- One reported spike: bucket-start time, emotion, squared z-score, raw
bucket count. -/
structure Spike where
  t : ℤ
  emotion : String
  zsq : ℚ
  value : ℤ
deriving Repr, DecidableEq

/-- np.argmax: index of the first occurrence of the maximum. -/
def argmaxIdx (y : List ℚ) : ℕ :=
  (y.foldl (fun (acc : ℕ × ℕ × Option ℚ) v =>
    match acc with
    | (_, idx, none) => (idx, idx + 1, some v)
    | (best, idx, some bv) =>
      if bv < v then (idx, idx + 1, some v) else (best, idx + 1, some bv))
    (0, 0, none)).1

/-- The decay-fit block of `_time_analytics`: with at least 4 buckets, fit
`exp(a + b·t)` to the tail from the peak bucket (counts clipped to 1e-6
before the log) and report `tau = -1/b` when `b < 0`; with fewer than 4
buckets no fit is attempted and every reported value is `None`. -/
def decayFit (polyfitLog : List ℚ → ℚ × ℚ) (expQ : ℚ → ℚ) (y : List ℚ) :
    List (Option ℚ) × Option ℚ :=
  if 4 ≤ y.length then
    let peak := argmaxIdx y
    let ytail := (y.drop peak).map (fun v => max v (1 / 1000000))
    let ba := polyfitLog ytail
    let yfit := (List.range ytail.length).map
      (fun i => pyRound (expQ (ba.2 + ba.1 * i)) 2)
    let tau := if ba.1 < 0 then some (pyRound (-1 / ba.1) 2) else none
    (List.replicate peak none ++ yfit.map some, tau)
  else (List.replicate y.length none, none)

/-- Cumulative sums (`np.cumsum`). -/
def cumsum (acc : ℕ) : List ℕ → List ℕ
  | [] => []
  | v :: vs => (acc + v) :: cumsum (acc + v) vs

/-- The sentiment three-class mapping of the contagion block:
`fillna('neutral').str.lower()` then prefix classification (the model's
sentiment column carries no NaN, so only the lower-casing and prefix test
remain). -/
def sentClass (s : String) : String :=
  let t := s.toLower
  if t.startsWith "pos" then "positive"
  else if t.startsWith "neg" then "negative"
  else "neutral"

/-- Comparison on timestamps for `sort_values('_ts')` (NaT sorts last). -/
def tsLe (a b : Option ℤ) : Bool :=
  match a, b with
  | some x, some y => decide (x ≤ y)
  | some _, none => true
  | none, some _ => false
  | none, none => true

/-- Contagion matrix row/column labels (the code's `labels`). -/
def contLabels : List String := ["positive", "neutral", "negative"]

/-- Transition counting of the contagion block: walk the time-sorted rows
keeping the previous row; a transition `i → j` is counted when both
timestamps are present and they are at most 1800 seconds apart (with a NaT
on either side the pandas comparison `nan <= 1800` is False). -/
def transLoop (prev : Option (Option ℤ × String)) (i j : String) :
    List (Option ℤ × String) → ℕ
  | [] => 0
  | (t, s) :: rest =>
    let inc : ℕ :=
      match prev, t with
      | some (some pt, ps), some tv =>
        if tv - pt ≤ 1800 ∧ ps = i ∧ s = j then 1 else 0
      | _, _ => 0
    inc + transLoop (some (t, s)) i j rest

/-- Count of observed `i → j` sentiment transitions in time-sorted rows. -/
def transCount (rows : List (Option ℤ × String)) (i j : String) : ℕ :=
  transLoop none i j rows

/-- `base_prob.get(j, 1e-9)`: the base-rate probability of sentiment `j`
over all rows, defaulting to 1e-9 when `j` never occurs (then it is absent
from the `value_counts` dict). -/
def baseGet (rows : List (Option ℤ × String)) (j : String) : ℚ :=
  let c := rows.countP (fun r => r.2 = j)
  if c = 0 then 1 / 1000000000 else (c : ℚ) / rows.length

/-- The 3×3 contagion lift matrix: each row's transition probabilities
(denominator defaulted to 1 when the row saw no transitions) divided by the
target's base rate, rounded to 2 decimals. -/
def contagionMatrix (rows : List (Option ℤ × String)) : List (List ℚ) :=
  contLabels.map (fun i =>
    let rowTotal := (contLabels.map (fun j => transCount rows i j)).sum
    let rt : ℚ := if rowTotal = 0 then 1 else rowTotal
    contLabels.map (fun j =>
      pyRound (((transCount rows i j : ℚ) / rt) / baseGet rows j) 2))

/-- Lexicographic comparison used for the unstack column order. -/
def strLe (a b : String) : Bool :=
  !(decide (b < a))

/-- Result of `_time_analytics`.  The early-exit dictionary carries no
`fit`/`tau_bins` keys; that is modelled by `[]`/`none` here. -/
structure TAResult where
  tl_labels : List ℤ
  tl_values : List ℕ
  fit : List (Option ℚ)
  tau_bins : Option ℚ
  emo_labels : List ℤ
  emo_series : List (String × List ℕ)
  spikes : List Spike
  half_life_hours : Option ℚ
  t_first10_hours : Option ℚ
  cont_labels : List String
  matrix : List (List ℚ)
  rc_labels : List ℤ
  rc_values : List ℚ
deriving Repr, DecidableEq

/-- The empty result returned when the table is empty or has no
`created_time` column. -/
def emptyTA : TAResult :=
  { tl_labels := [], tl_values := [], fit := [], tau_bins := none,
    emo_labels := [], emo_series := [], spikes := [],
    half_life_hours := none, t_first10_hours := none,
    cont_labels := [], matrix := [], rc_labels := [], rc_values := [] }

/-- backend.py `_time_analytics`.  Notes on the failure paths kept by the
model: on a non-empty table whose timestamps are all NaT the pandas time
grouper computes NaT range edges and `date_range` raises ValueError (and
even under a grouper that dropped NaT silently, the unconditional
`cum[-1]` on the then-empty cumulative array would raise IndexError); a
mix of valid and NaT timestamps raises at `.astype(int)` on the NaN ages
of the reaction curve. -/
def time_analytics (polyfitLog : List ℚ → ℚ × ℚ) (expQ : ℚ → ℚ)
    (df : Frame) : Except String TAResult :=
  if df.n = 0 || df.created_time.isNone then pure emptyTA
  else do
    let ct := df.created_time.getD []
    let valid := ct.filterMap id
    match listMin? valid, listMax? valid with
    | some tmin, some tmax =>
      let spanHours : ℚ := max (1 / 1000000) (((tmax - tmin : ℤ) : ℚ) / 3600)
      let w : ℤ := if spanHours ≤ 6 then 900 else 3600
      let b0 := tmin.fdiv w
      let b1 := tmax.fdiv w
      let buckets := (List.range ((b1 - b0).toNat + 1)).map (fun k => b0 + k)
      let tlLabels := buckets.map (fun b => b * w)
      let tlValues := buckets.map (fun b => valid.countP (fun t => t.fdiv w = b))
      let emoCol ← colE df.emotion "emotion"
      let emoTotal := ((sortedCounts emoCol).take 5).map (fun p => p.1)
      let evRows := (List.zip ct emoCol).filterMap
        (fun p => p.1.map (fun t => (t, p.2)))
      let obsBuckets := sortBy (fun (a b : ℤ) => decide (a ≤ b))
        ((evRows.map (fun r => r.1.fdiv w)).dedup)
      let emoCols := (sortBy strLe ((evRows.map (fun r => r.2)).dedup)).filter
        (fun c => emoTotal.contains c)
      let series := emoCols.map (fun c =>
        (c, obsBuckets.map (fun b =>
          evRows.countP (fun r => r.1.fdiv w = b && r.2 = c))))
      let emoLabels := obsBuckets.map (fun b => b * w)
      let spikes := series.flatMap (fun cv =>
        let s : List ℚ := cv.2.map (fun v => (v : ℚ))
        (spikeFlags s).map (fun i =>
          { t := emoLabels.getD i 0, emotion := cv.1, zsq := zsqAt s i,
            value := ((cv.2.getD i 0 : ℕ) : ℤ) }))
      let spikesSorted := (sortBy (fun (a b : Spike) => decide (b.zsq ≤ a.zsq)) spikes).take 8
      let y := tlValues.map (fun v => (v : ℚ))
      let ft := decayFit polyfitLog expQ y
      let cums := cumsum 0 tlValues
      match cums.getLast? with
      | none => Except.error "IndexError: index -1 is out of bounds"
      | some last =>
        let scale : ℚ := if spanHours ≤ 6 then 1 / 4 else 1
        let half : Option ℚ :=
          if 0 < last then
            some (pyRound ((cums.findIdx (fun c => decide ((last : ℚ) / 2 ≤ (c : ℚ))) : ℚ) * scale) 2)
          else none
        let t10 : Option ℚ :=
          if cums ≠ [] ∧ 10 ≤ last then
            some (pyRound ((cums.findIdx (fun c => decide (10 ≤ c)) : ℚ) * scale) 2)
          else none
        let sentCol ← colE df.sentiment "sentiment"
        let sRows := sortBy (fun (r1 r2 : Option ℤ × String) => tsLe r1.1 r2.1)
          (List.zip ct (sentCol.map sentClass))
        let matrix := contagionMatrix sRows
        if ct.any (fun t => t.isNone) then
          Except.error "ValueError: cannot convert NA to integer"
        else
          let ages := valid.map (fun t => (t - tmin).fdiv 3600)
          let totals := reactionSum df
          let pairs := List.zip ages (totals.map (fun x => ((x : ℤ) : ℚ)))
          let rcAges := sortBy (fun (a b : ℤ) => decide (a ≤ b)) ages.dedup
          let rcValues := rcAges.map (fun a =>
            let vs := (pairs.filter (fun p => p.1 = a)).map (fun p => p.2)
            pyRound (vs.sum / vs.length) 2)
          pure {
            tl_labels := tlLabels
            tl_values := tlValues
            fit := ft.1
            tau_bins := ft.2
            emo_labels := emoLabels
            emo_series := series
            spikes := spikesSorted
            half_life_hours := half
            t_first10_hours := t10
            cont_labels := contLabels
            matrix := matrix
            rc_labels := rcAges
            rc_values := rcValues }
    | _, _ =>
      Except.error "ValueError: Neither start nor end can be NaT"

/-! ## Concrete inputs used by the theorems -/

/-- An empty comment table that carries the full pipeline schema (all
columns present, zero rows) — the shape `ensure_engagement_columns` plus
`analyze_df` would hand to compute_insights. -/
def emptySchemaFrame : Frame :=
  { n := 0, user_id := some [], user_name := some [], comment_text := some [],
    sentiment := some [], emotion := some [], language := some [],
    created_time := some [], like_count := some [], love_count := some [],
    haha_count := some [], wow_count := some [], sad_count := some [],
    angry_count := some [], care_count := some [], reply_count := some [],
    total_reactions := some [], engagement_score := some [],
    emoji_count := some [], permalink_url := some [] }

/-- A bare empty table with no columns at all (`pd.DataFrame()`). -/
def bareEmptyFrame : Frame :=
  { n := 0 }

/-- The bundle compute_insights produces for `emptySchemaFrame`: zero
counts and empty lists, but `safety_score` 100, NaN `emoji_pct`, null
`best_hour`, all seven reaction labels with zero values, and 24 zero-filled
hourly buckets. -/
def c2EmptyBundle : Insights :=
  { total_comments := 0, unique_users := 0, total_reactions := 0,
    avg_reactions_per_comment := 0, median_reactions := 0,
    median_engagement := 0, emoji_pct := none, language_diversity := 0,
    positivity_pct := 0, safety_score := 100, advocacy := 0,
    best_hour := none, velocity_cph := 0, top_emotion := "neutral",
    top_keyword := "", sentiment_values := [0, 0, 0],
    emotions_labels := [], emotions_values := [], languages_labels := [],
    languages_values := [],
    reactions_labels := ["LIKE", "LOVE", "HAHA", "WOW", "SAD", "ANGRY", "CARE"],
    reactions_values := [0, 0, 0, 0, 0, 0, 0], timeline_labels := [],
    timeline_values := [], hourly_labels := List.range 24,
    hourly_pos := List.replicate 24 0, hourly_neg := List.replicate 24 0,
    hourly_neu := List.replicate 24 0, keywords_all := [],
    keywords_pos := [], keywords_neg := [], examples_positive := [],
    examples_negative := [], top_haha := [], top_reacted := [],
    top_engaged := [], risks := [] }

/-- The keyword-extraction test text of the specification. -/
def c8Text : String :=
  "Check this out http://x.co #great #great amazing"

/-- A dataset of `n` positive comments spaced one minute apart starting at
`t0`, presented as the contagion block sees it: pairs of timestamp and
sentiment class (`zip` of the coerced `created_time` with
`sentiment.map sentClass`). -/
def minuteApartPositives (t0 : ℤ) : ℕ → List (Option ℤ × String)
  | 0 => []
  | n + 1 => (some t0, "positive") :: minuteApartPositives (t0 + 60) n

/-- A non-empty one-row table whose single timestamp is unparseable
(coerced to NaT), with the full remaining schema present. -/
def allNaTFrame : Frame :=
  { n := 1, user_id := some ["u1"], user_name := some ["u"],
    comment_text := some ["hi"], sentiment := some ["positive"],
    emotion := some ["joy"], language := some [some "en"],
    created_time := some [none], like_count := some [0],
    love_count := some [0], haha_count := some [0], wow_count := some [0],
    sad_count := some [0], angry_count := some [0], care_count := some [0],
    reply_count := some [0], total_reactions := some [0],
    engagement_score := some [0], emoji_count := some [0],
    permalink_url := some [""] }

/-- A small raw comment table (reaction/reply columns partially missing)
used to witness the engagement-normalizer theorems. -/
def rawFrame : Frame :=
  { n := 2, like_count := some [1, 2], reply_count := some [3, 0] }

/-- A 21-post benchmark history: keys `p0` … `p20` in insertion order, each
with a non-empty KPI snapshot. -/
def hist21 : List (String × Snap) :=
  (List.range 21).map (fun i =>
    ("p" ++ toString i, { ts := 0, kpis := [("total_comments", (i : ℚ))] }))

/-- The snapshot compute_benchmarks writes for `p0` in the C9
counterexample. -/
def freshSnap : Snap :=
  { ts := 1000, kpis := [("total_comments", 99)] }

/-- Historical KPI items used to witness the percentile theorems. -/
def c6Items : List (List (String × ℚ)) :=
  [[("advocacy", 10)], [("advocacy", 30)], [("safety_score", 5)]]

/-- An already-normalized table, used to witness idempotence. -/
def normFrame : Frame :=
  ensure_engagement_columns rawFrame

/-! ## Theorems -/

/-- Length of a row-wise column sum. -/
theorem addCols_length (a b : List ℤ) :
    (addCols a b).length = min a.length b.length := by
  simp [addCols]

/-- Length of a zero-filled column of a well-formed frame. -/
theorem fillZero_length (n : ℕ) (o : Option (List ℤ)) (h : olen n o = true) :
    (fillZero n o).length = n := by
  cases o with
  | none => simp [fillZero]
  | some l => simpa [fillZero, olen] using h

/-- Entrywise reading of a row-wise column sum. -/
theorem addCols_getD (a b : List ℤ) (i : ℕ) (ha : i < a.length)
    (hb : i < b.length) :
    (addCols a b).getD i 0 = a.getD i 0 + b.getD i 0 := by
  have hl : i < (addCols a b).length := by
    rw [addCols_length]; omega
  rw [List.getD_eq_getElem _ _ hl, List.getD_eq_getElem _ _ ha,
    List.getD_eq_getElem _ _ hb]
  simp [addCols]

/-- Length of the seven-column row-wise sum. -/
theorem sum7_length (n : ℕ) (l1 l2 l3 l4 l5 l6 l7 : List ℤ)
    (h1 : l1.length = n) (h2 : l2.length = n) (h3 : l3.length = n)
    (h4 : l4.length = n) (h5 : l5.length = n) (h6 : l6.length = n)
    (h7 : l7.length = n) :
    (addCols l1 (addCols l2 (addCols l3 (addCols l4 (addCols l5 (addCols l6 l7)))))).length = n := by
  simp [addCols_length, h1, h2, h3, h4, h5, h6, h7]

/-- Entrywise reading of the seven-column row-wise sum. -/
theorem sum7_getD (n i : ℕ) (l1 l2 l3 l4 l5 l6 l7 : List ℤ)
    (h1 : l1.length = n) (h2 : l2.length = n) (h3 : l3.length = n)
    (h4 : l4.length = n) (h5 : l5.length = n) (h6 : l6.length = n)
    (h7 : l7.length = n) (hi : i < n) :
    (addCols l1 (addCols l2 (addCols l3 (addCols l4 (addCols l5 (addCols l6 l7)))))).getD i 0 =
      l1.getD i 0 + l2.getD i 0 + l3.getD i 0 + l4.getD i 0 + l5.getD i 0 +
        l6.getD i 0 + l7.getD i 0 := by
  have len67 : (addCols l6 l7).length = n := by rw [addCols_length, h6, h7, Nat.min_self]
  have len5 : (addCols l5 (addCols l6 l7)).length = n := by
    rw [addCols_length, h5, len67, Nat.min_self]
  have len4 : (addCols l4 (addCols l5 (addCols l6 l7))).length = n := by
    rw [addCols_length, h4, len5, Nat.min_self]
  have len3 : (addCols l3 (addCols l4 (addCols l5 (addCols l6 l7)))).length = n := by
    rw [addCols_length, h3, len4, Nat.min_self]
  have len2 : (addCols l2 (addCols l3 (addCols l4 (addCols l5 (addCols l6 l7))))).length = n := by
    rw [addCols_length, h2, len3, Nat.min_self]
  rw [addCols_getD _ _ i (by omega) (by omega),
    addCols_getD _ _ i (by omega) (by omega),
    addCols_getD _ _ i (by omega) (by omega),
    addCols_getD _ _ i (by omega) (by omega),
    addCols_getD _ _ i (by omega) (by omega),
    addCols_getD _ _ i (by omega) (by omega)]
  omega

/-- C1: after the Engagement Normalizer (ensure_engagement_columns) is
applied to any comment table, every row satisfies
`engagement_score = total_reactions + reply_count` and
`total_reactions = like + love + haha + wow + sad + angry + care`, missing
reaction columns and a missing reply_count counting as zero. -/
theorem engagement_normalizer_row_invariant (df : Frame) (hwf : df.wf = true)
    (i : ℕ) (hi : i < df.n) :
    (((ensure_engagement_columns df).engagement_score).getD []).getD i 0 =
        (((ensure_engagement_columns df).total_reactions).getD []).getD i 0 +
          (((ensure_engagement_columns df).reply_count).getD []).getD i 0 ∧
    (((ensure_engagement_columns df).total_reactions).getD []).getD i 0 =
        (((ensure_engagement_columns df).like_count).getD []).getD i 0 +
        (((ensure_engagement_columns df).love_count).getD []).getD i 0 +
        (((ensure_engagement_columns df).haha_count).getD []).getD i 0 +
        (((ensure_engagement_columns df).wow_count).getD []).getD i 0 +
        (((ensure_engagement_columns df).sad_count).getD []).getD i 0 +
        (((ensure_engagement_columns df).angry_count).getD []).getD i 0 +
        (((ensure_engagement_columns df).care_count).getD []).getD i 0 := by
  simp only [Frame.wf, Bool.and_eq_true] at hwf
  obtain ⟨⟨⟨⟨⟨⟨⟨⟨⟨⟨⟨⟨_, hlk⟩, hlv⟩, hhh⟩, hww⟩, hsd⟩, han⟩, hca⟩, hrp⟩, _⟩, _⟩, _⟩, _⟩ := hwf
  have hlk' := fillZero_length df.n df.like_count hlk
  have hlv' := fillZero_length df.n df.love_count hlv
  have hhh' := fillZero_length df.n df.haha_count hhh
  have hww' := fillZero_length df.n df.wow_count hww
  have hsd' := fillZero_length df.n df.sad_count hsd
  have han' := fillZero_length df.n df.angry_count han
  have hca' := fillZero_length df.n df.care_count hca
  have hrp' := fillZero_length df.n df.reply_count hrp
  have htot : (reactionSum df).length = df.n := by
    unfold reactionSum
    exact sum7_length df.n _ _ _ _ _ _ _ hlk' hlv' hhh' hww' hsd' han' hca'
  constructor
  · simp only [ensure_engagement_columns, Option.getD_some]
    exact addCols_getD _ _ i (by omega) (by omega)
  · simp only [ensure_engagement_columns, Option.getD_some, reactionSum]
    exact sum7_getD df.n i _ _ _ _ _ _ _ hlk' hlv' hhh' hww' hsd' han' hca' hi

/-- Witness for C1 at a concrete raw table and row. -/
theorem engagement_normalizer_row_invariant_witness :
    rawFrame.wf = true ∧ 0 < rawFrame.n ∧
      ((((ensure_engagement_columns rawFrame).engagement_score).getD []).getD 0 0 =
          (((ensure_engagement_columns rawFrame).total_reactions).getD []).getD 0 0 +
            (((ensure_engagement_columns rawFrame).reply_count).getD []).getD 0 0 ∧
        (((ensure_engagement_columns rawFrame).total_reactions).getD []).getD 0 0 =
          (((ensure_engagement_columns rawFrame).like_count).getD []).getD 0 0 +
          (((ensure_engagement_columns rawFrame).love_count).getD []).getD 0 0 +
          (((ensure_engagement_columns rawFrame).haha_count).getD []).getD 0 0 +
          (((ensure_engagement_columns rawFrame).wow_count).getD []).getD 0 0 +
          (((ensure_engagement_columns rawFrame).sad_count).getD []).getD 0 0 +
          (((ensure_engagement_columns rawFrame).angry_count).getD []).getD 0 0 +
          (((ensure_engagement_columns rawFrame).care_count).getD []).getD 0 0) :=
  ⟨by decide, by decide,
    engagement_normalizer_row_invariant rawFrame (by decide) 0 (by decide)⟩

/-- C5: the Engagement Normalizer is idempotent — applied to a table that
is already normalized (all seven reaction columns, reply_count,
total_reactions and engagement_score present and consistent) it returns
the table unchanged, engagement_score included. -/
theorem engagement_normalizer_idempotent (df : Frame)
    (h : df.normalized = true) :
    ensure_engagement_columns df = df := by
  obtain ⟨n, uid, un, ctx, sent, emo, lang, ct, lk, lv, hh, ww, sd, an, ca, rp, tr, es, ec, pl⟩ := df
  simp only [Frame.normalized, Bool.and_eq_true, beq_iff_eq,
    Option.isSome_iff_exists] at h
  obtain ⟨⟨⟨⟨⟨⟨⟨⟨⟨⟨lk', hlk⟩, ⟨lv', hlv⟩⟩, ⟨hh', hhh⟩⟩, ⟨ww', hww⟩⟩, ⟨sd', hsd⟩⟩,
    ⟨an', han⟩⟩, ⟨ca', hca⟩⟩, ⟨rp', hrp⟩⟩, htr⟩, hes⟩ := h
  subst hlk hlv hhh hww hsd han hca hrp
  simp only [ensure_engagement_columns]
  rw [← htr, ← hes]
  simp [fillZero]

/-- Witness for C5 at a concrete already-normalized table. -/
theorem engagement_normalizer_idempotent_witness :
    normFrame.normalized = true ∧ ensure_engagement_columns normFrame = normFrame :=
  ⟨by decide, engagement_normalizer_idempotent normFrame (by decide)⟩

/-- Banker's rounding never goes below the floor. -/
theorem roundHalfEvenInt_ge_floor (q : ℚ) : ⌊q⌋ ≤ roundHalfEvenInt q := by
  simp only [roundHalfEvenInt]
  split_ifs <;> omega

/-- Banker's rounding never exceeds the floor plus one. -/
theorem roundHalfEvenInt_le_floor_add_one (q : ℚ) :
    roundHalfEvenInt q ≤ ⌊q⌋ + 1 := by
  simp only [roundHalfEvenInt]
  split_ifs <;> omega

/-- Banker's rounding is monotone. -/
theorem roundHalfEvenInt_mono {x y : ℚ} (h : x ≤ y) :
    roundHalfEvenInt x ≤ roundHalfEvenInt y := by
  rcases lt_or_le ⌊x⌋ ⌊y⌋ with hf | hf
  · calc roundHalfEvenInt x ≤ ⌊x⌋ + 1 := roundHalfEvenInt_le_floor_add_one x
      _ ≤ ⌊y⌋ := by omega
      _ ≤ roundHalfEvenInt y := roundHalfEvenInt_ge_floor y
  · have hfe : ⌊x⌋ = ⌊y⌋ := le_antisymm (Int.floor_le_floor h) hf
    simp only [roundHalfEvenInt, hfe]
    split_ifs <;> first | omega | linarith

/-- Python's `round(·, d)` is monotone. -/
theorem pyRound_mono {x y : ℚ} (d : ℕ) (h : x ≤ y) :
    pyRound x d ≤ pyRound y d := by
  unfold pyRound
  have h10 : (0 : ℚ) < 10 ^ d := by positivity
  have hm := roundHalfEvenInt_mono (mul_le_mul_of_nonneg_right h (le_of_lt h10))
  have hc : ((roundHalfEvenInt (x * 10 ^ d) : ℚ)) ≤ (roundHalfEvenInt (y * 10 ^ d) : ℚ) := by
    exact_mod_cast hm
  gcongr

/-- C6: for a fixed historical set, the percentile rank computed by
compute_benchmarks.pct_of is monotonically non-decreasing as the current
value increases, and it is null exactly when no historical values exist
for the metric. -/
theorem pct_of_monotone (items : List (List (String × ℚ))) (m : String)
    (v1 v2 : ℚ) (h : v1 ≤ v2) :
    (pct_of items m v1 = none ↔ metricVals items m = []) ∧
      ∀ p1 p2 : ℚ, pct_of items m v1 = some p1 → pct_of items m v2 = some p2 →
        p1 ≤ p2 := by
  constructor
  · unfold pct_of
    by_cases hv : metricVals items m = [] <;> simp [hv]
  · intro p1 p2 h1 h2
    unfold pct_of at h1 h2
    by_cases hv : metricVals items m = []
    · simp [hv] at h1
    · simp only [if_neg hv, Option.some.injEq] at h1 h2
      subst h1
      subst h2
      apply pyRound_mono
      have hlen : (0 : ℚ) < (metricVals items m).length := by
        have : metricVals items m ≠ [] := hv
        have h0 : 0 < (metricVals items m).length := List.length_pos.mpr this
        exact_mod_cast h0
      have hcount : (metricVals items m).countP (fun v => decide (v ≤ v1)) ≤
          (metricVals items m).countP (fun v => decide (v ≤ v2)) := by
        apply List.countP_mono_left
        intro a _ ha
        simp only [decide_eq_true_eq] at ha ⊢
        exact le_trans ha h
      have hcq : ((metricVals items m).countP (fun v => decide (v ≤ v1)) : ℚ) ≤
          ((metricVals items m).countP (fun v => decide (v ≤ v2)) : ℚ) := by
        exact_mod_cast hcount
      gcongr

/-- Witness for C6 on a concrete history and pair of current values. -/
theorem pct_of_monotone_witness :
    (15 : ℚ) ≤ 35 ∧
      ((pct_of c6Items "advocacy" 15 = none ↔ metricVals c6Items "advocacy" = []) ∧
        ∀ p1 p2 : ℚ, pct_of c6Items "advocacy" 15 = some p1 →
          pct_of c6Items "advocacy" 35 = some p2 → p1 ≤ p2) :=
  ⟨by norm_num, pct_of_monotone c6Items "advocacy" 15 35 (by norm_num)⟩

/-- C2 (amended): on the empty table carrying the pipeline schema,
compute_insights returns — without raising — a bundle with zero counts and
empty keyword/example lists but with safety_score 100, NaN emoji_pct, null
best_hour, all seven reaction labels paired with zero sums, and a
24-bucket zero-filled hourly split; on a bare empty table with no columns
at all it raises KeyError instead of returning an empty bundle. -/
theorem compute_insights_empty_bundle :
    compute_insights emptySchemaFrame = Except.ok c2EmptyBundle ∧
      compute_insights bareEmptyFrame = Except.error "KeyError: user_name" :=
  ⟨rfl, rfl⟩

/-- C2 counterexample: the claim's "KPI fields are all zero" fails on the
code — the safety score of the empty bundle is 100, not 0. -/
theorem compute_insights_empty_safety_not_zero :
    (compute_insights emptySchemaFrame).map Insights.safety_score = Except.ok 100 ∧
      ((100 : ℚ) ≠ 0) :=
  ⟨rfl, by norm_num⟩

/-- C3: evaluating the spike detector at the specification's test series.
Contrary to the claim, `[1,1,1,1,1,10]` produces NO spike: the 3-bucket
rolling window includes the current bucket, so the jump's z-score is
6/√27 < 2; the flat series produces none either (zero std makes every
z-score NaN). -/
theorem spike_detection_test_series :
    spikeFlags [1, 1, 1, 1, 1, 10] = [] ∧ spikeFlags [2, 2, 2, 2, 2, 2] = [] := by
  constructor <;> decide

/-- Supporting fact for C3: because the trailing window includes the
current bucket, a 3-bucket sample standard deviation caps every z-score at
2/√3 < 2, so the spike rule can never fire on any series whatsoever. -/
theorem spikeFlags_always_empty (s : List ℚ) : spikeFlags s = [] := by
  unfold spikeFlags
  rw [List.filter_eq_nil_iff]
  intro i _
  simp only [windowStats, Bool.and_eq_true, decide_eq_true_eq, not_and]
  intro _ h _
  obtain ⟨⟨hvar, hdev⟩, hz⟩ := h
  set a := s.getD (i - 2) 0 with ha
  set b := s.getD (i - 1) 0 with hb
  set c := s.getD i 0 with hc
  set mu := (a + b + c) / 3 with hmu
  apply hvar
  have h1 : (a - mu) ^ 2 + (b - mu) ^ 2 + (c - mu) ^ 2 ≤ 0 := by
    linarith [hz, sq_nonneg (a - mu), sq_nonneg (b - mu)]
  have h2 : (0 : ℚ) ≤ (a - mu) ^ 2 + (b - mu) ^ 2 + (c - mu) ^ 2 := by positivity
  have h3 : (a - mu) ^ 2 + (b - mu) ^ 2 + (c - mu) ^ 2 = 0 := le_antisymm h1 h2
  rw [h3]
  norm_num

/-- C7 (amended): on an empty table, or one without a created_time column,
_time_analytics returns the empty/null-filled result and does not raise. -/
theorem time_analytics_empty_graceful (pf : List ℚ → ℚ × ℚ) (e : ℚ → ℚ)
    (df : Frame) (h : df.n = 0 ∨ df.created_time = none) :
    time_analytics pf e df = Except.ok emptyTA := by
  unfold time_analytics
  rcases h with h | h <;> simp [h, pure, Except.pure]

/-- Witness for C7 at the empty frame. -/
theorem time_analytics_empty_graceful_witness :
    (bareEmptyFrame.n = 0 ∨ bareEmptyFrame.created_time = none) ∧
      time_analytics (fun _ => ((0 : ℚ), (0 : ℚ))) (fun _ => (0 : ℚ)) bareEmptyFrame =
        Except.ok emptyTA :=
  ⟨Or.inl rfl, time_analytics_empty_graceful _ _ bareEmptyFrame (Or.inl rfl)⟩

/-- C7 counterexample: a non-empty one-row table whose single timestamp is
unparseable (all-NaT after coercion) makes _time_analytics raise instead
of degrading to the empty result: the time grouper's bin edges are NaT. -/
theorem time_analytics_all_nat_raises :
    time_analytics (fun _ => ((0 : ℚ), (0 : ℚ))) (fun _ => (0 : ℚ)) allNaTFrame =
      Except.error "ValueError: Neither start nor end can be NaT" :=
  rfl

/-- C8 (amended): keyword extraction on the test text drops the URL and
the stopwords "this" and "out", keeps `#great` twice and `amazing` once —
and also keeps `check` (it is not in the stopword set), with count 1. -/
theorem keyword_extraction_c8 :
    tokenize c8Text = ["check", "#great", "#great", "amazing"] ∧
      counterOf (tokenize c8Text) = [("check", 1), ("#great", 2), ("amazing", 1)] := by
  constructor <;> decide

/-- C8 counterexample: the token `check` — neither `#great` nor `amazing`
— is also produced, so the claim's "excludes every other token" fails. -/
theorem keyword_extraction_c8_check_kept :
    "check" ∈ tokenize c8Text ∧ "check" ≠ "#great" ∧ "check" ≠ "amazing" := by
  decide

/-- C10: when the binned timeline has fewer than 4 buckets, no exponential
decay fit is attempted — tau_bins is null and every fitted-curve entry is
null, whatever the fit numerics would have produced. -/
theorem decay_fit_short_series (pf : List ℚ → ℚ × ℚ) (e : ℚ → ℚ)
    (y : List ℚ) (h : y.length < 4) :
    decayFit pf e y = (List.replicate y.length none, none) := by
  unfold decayFit
  rw [if_neg (by omega)]

/-- Witness for C10 on a strictly decaying 3-bucket series. -/
theorem decay_fit_short_series_witness :
    ([(3 : ℚ), 2, 1].length < 4) ∧
      decayFit (fun _ => ((0 : ℚ), (0 : ℚ))) (fun _ => (0 : ℚ)) [(3 : ℚ), 2, 1] =
        (List.replicate ([(3 : ℚ), 2, 1]).length none, none) :=
  ⟨by decide, decay_fit_short_series _ _ _ (by decide)⟩

/-- Insertion sort leaves a list that is already sorted (pairwise `le`)
unchanged. -/
theorem sortBy_eq_self {α : Type} (le : α → α → Bool) :
    ∀ l : List α, l.Pairwise (fun a b => le a b = true) → sortBy le l = l := by
  intro l h
  induction l with
  | nil => rfl
  | cons a as ih =>
    rw [List.pairwise_cons] at h
    have hs : sortBy le as = as := ih h.2
    simp only [sortBy, hs]
    cases as with
    | nil => rfl
    | cons b bs => simp [insertBy, h.1 b (by simp)]

/-- Every row of the minute-apart positive dataset is a positive-class row
with timestamp `t0 + 60·k`. -/
theorem mem_minuteApart {t0 : ℤ} {n : ℕ} {r : Option ℤ × String}
    (h : r ∈ minuteApartPositives t0 n) :
    r.2 = "positive" ∧ ∃ k : ℕ, r.1 = some (t0 + 60 * k) := by
  induction n generalizing t0 with
  | zero => simp [minuteApartPositives] at h
  | succ m ih =>
    simp only [minuteApartPositives, List.mem_cons] at h
    rcases h with rfl | h
    · exact ⟨rfl, 0, by simp⟩
    · obtain ⟨h2, k, hk⟩ := ih h
      refine ⟨h2, k + 1, ?_⟩
      rw [hk]
      push_cast
      ring_nf

/-- The minute-apart positive dataset is already sorted by timestamp. -/
theorem minuteApart_pairwise (t0 : ℤ) (n : ℕ) :
    (minuteApartPositives t0 n).Pairwise
      (fun (a b : Option ℤ × String) => tsLe a.1 b.1 = true) := by
  induction n generalizing t0 with
  | zero => simp [minuteApartPositives]
  | succ m ih =>
    simp only [minuteApartPositives]
    refine List.Pairwise.cons ?_ (ih (t0 + 60))
    intro b hb
    obtain ⟨-, k, hk⟩ := mem_minuteApart hb
    rw [hk]
    simp only [tsLe, decide_eq_true_eq]
    have hk0 : (0 : ℤ) ≤ 60 * k := by positivity
    omega

/-- No transition ever targets a class other than "positive" on the
all-positive dataset, whatever the walk's current state. -/
theorem transLoop_into_ne (n : ℕ) (i j : String) (hj : j ≠ "positive") :
    ∀ (t0 : ℤ) (prev : Option (Option ℤ × String)),
      transLoop prev i j (minuteApartPositives t0 n) = 0 := by
  induction n with
  | zero => intro t0 prev; rfl
  | succ m ih =>
    intro t0 prev
    simp only [minuteApartPositives, transLoop]
    rw [ih (t0 + 60) (some (some t0, "positive"))]
    rcases prev with _ | ⟨pt, ps⟩
    · rfl
    · rcases pt with _ | ptv
      · rfl
      · show (if t0 - ptv ≤ 1800 ∧ ps = i ∧ "positive" = j then 1 else 0) + 0 = 0
        rw [if_neg]
        rintro ⟨-, -, hpp⟩
        exact hj hpp.symm

/-- No transition ever starts from a class other than "positive" on the
all-positive dataset, provided the walk's prior state is positive or
empty. -/
theorem transLoop_from_ne (n : ℕ) (i j : String) (hi : i ≠ "positive") :
    ∀ (t0 : ℤ) (prev : Option (Option ℤ × String)),
      (∀ p, prev = some p → p.2 = "positive") →
      transLoop prev i j (minuteApartPositives t0 n) = 0 := by
  induction n with
  | zero => intro t0 prev _; rfl
  | succ m ih =>
    intro t0 prev hprev
    simp only [minuteApartPositives, transLoop]
    rw [ih (t0 + 60) (some (some t0, "positive"))
      (by intro p hp; injection hp with hp2; rw [← hp2])]
    rcases prev with _ | ⟨pt, ps⟩
    · rfl
    · rcases pt with _ | ptv
      · rfl
      · show (if t0 - ptv ≤ 1800 ∧ ps = i ∧ "positive" = j then 1 else 0) + 0 = 0
        rw [if_neg]
        rintro ⟨-, hps, -⟩
        have hp : ps = "positive" := hprev (some ptv, ps) rfl
        exact hi (by rw [← hps]; exact hp)

/-- Counting positive→positive transitions from a positive state within
the 30-minute gap: every row of the remaining dataset contributes one. -/
theorem transLoop_pos_pos (n : ℕ) :
    ∀ (t0 pt : ℤ), t0 - pt ≤ 1800 →
      transLoop (some (some pt, "positive")) "positive" "positive"
        (minuteApartPositives t0 n) = n := by
  induction n with
  | zero => intro t0 pt _; rfl
  | succ m ih =>
    intro t0 pt h
    simp only [minuteApartPositives, transLoop]
    rw [ih (t0 + 60) t0 (by omega)]
    rw [if_pos (show t0 - pt ≤ 1800 ∧ True ∧ True from ⟨h, trivial, trivial⟩)]
    omega

/-- The all-positive dataset of `n` rows yields exactly `n - 1`
positive→positive transitions. -/
theorem transCount_minuteApart (t0 : ℤ) (n : ℕ) :
    transCount (minuteApartPositives t0 n) "positive" "positive" = n - 1 := by
  cases n with
  | zero => rfl
  | succ m =>
    unfold transCount
    simp only [minuteApartPositives, transLoop]
    rw [transLoop_pos_pos m (t0 + 60) t0 (by omega)]
    omega

/-- Row count of the minute-apart dataset. -/
theorem minuteApart_length (t0 : ℤ) (n : ℕ) :
    (minuteApartPositives t0 n).length = n := by
  induction n generalizing t0 with
  | zero => rfl
  | succ m ih => simp [minuteApartPositives, ih]

/-- Every row of the minute-apart dataset counts as "positive". -/
theorem minuteApart_countP_pos (t0 : ℤ) (n : ℕ) :
    (minuteApartPositives t0 n).countP
      (fun (r : Option ℤ × String) => decide (r.2 = "positive")) = n := by
  induction n generalizing t0 with
  | zero => rfl
  | succ m ih => simp [minuteApartPositives, List.countP_cons, ih]

/-- Base rate of "positive" on the all-positive dataset is exactly 1. -/
theorem baseGet_minuteApart (t0 : ℤ) (n : ℕ) (hn : 1 ≤ n) :
    baseGet (minuteApartPositives t0 n) "positive" = 1 := by
  unfold baseGet
  rw [minuteApart_countP_pos, minuteApart_length, if_neg (by omega)]
  exact div_self (Nat.cast_ne_zero.mpr (by omega))

/-- Evaluation of `round(1.0, 2)`. -/
theorem pyRound_one : pyRound 1 2 = 1 := by decide

/-- C4 (amended): for any dataset of at least two positive-sentiment
comments spaced one minute apart, the contagion matrix of _time_analytics
has lift EXACTLY 1.0 in the positive→positive cell (the base rate of
"positive" is 1 when every comment is positive, so the claimed strict
lift > 1.0 is impossible), and every transition count into "negative" or
"neutral" is 0. -/
theorem contagion_all_positive (t0 : ℤ) (n : ℕ) (hn : 2 ≤ n) :
    (((contagionMatrix (sortBy (fun (r1 r2 : Option ℤ × String) => tsLe r1.1 r2.1)
          (minuteApartPositives t0 n))).headD []).headD 0 = 1) ∧
      ∀ i : String,
        transCount (sortBy (fun (r1 r2 : Option ℤ × String) => tsLe r1.1 r2.1)
            (minuteApartPositives t0 n)) i "neutral" = 0 ∧
          transCount (sortBy (fun (r1 r2 : Option ℤ × String) => tsLe r1.1 r2.1)
            (minuteApartPositives t0 n)) i "negative" = 0 := by
  have hsort : sortBy (fun (r1 r2 : Option ℤ × String) => tsLe r1.1 r2.1)
      (minuteApartPositives t0 n) = minuteApartPositives t0 n :=
    sortBy_eq_self _ _ (minuteApart_pairwise t0 n)
  rw [hsort]
  constructor
  · simp only [contagionMatrix, contLabels, List.map_cons, List.map_nil,
      List.headD_cons, List.sum_cons, List.sum_nil]
    rw [transCount_minuteApart t0 n]
    unfold transCount
    rw [transLoop_into_ne n "positive" "neutral" (by decide) t0 none,
      transLoop_into_ne n "positive" "negative" (by decide) t0 none,
      baseGet_minuteApart t0 n (by omega)]
    rw [if_neg (by omega)]
    have hne : ((n - 1 : ℕ) : ℚ) ≠ 0 := by
      have : 0 < n - 1 := by omega
      exact_mod_cast this.ne'
    rw [show (n - 1 + (0 + (0 + 0)) : ℕ) = n - 1 by omega]
    rw [div_self hne, div_one]
    exact pyRound_one
  · intro i
    exact ⟨transLoop_into_ne n i "neutral" (by decide) t0 none,
      transLoop_into_ne n i "negative" (by decide) t0 none⟩

/-- Witness for C4 on two positive comments at times 0 and 60. -/
theorem contagion_all_positive_witness :
    2 ≤ 2 ∧
      ((((contagionMatrix (sortBy (fun (r1 r2 : Option ℤ × String) => tsLe r1.1 r2.1)
            (minuteApartPositives 0 2))).headD []).headD 0 = 1) ∧
        ∀ i : String,
          transCount (sortBy (fun (r1 r2 : Option ℤ × String) => tsLe r1.1 r2.1)
              (minuteApartPositives 0 2)) i "neutral" = 0 ∧
            transCount (sortBy (fun (r1 r2 : Option ℤ × String) => tsLe r1.1 r2.1)
              (minuteApartPositives 0 2)) i "negative" = 0) :=
  ⟨by omega, contagion_all_positive 0 2 (by omega)⟩

/-- C4 counterexample: on three positive comments one minute apart the
positive→positive lift equals 1.0, refuting the claimed strict
inequality lift > 1.0. -/
theorem contagion_lift_not_gt_one :
    ¬ (1 < ((contagionMatrix (sortBy (fun (r1 r2 : Option ℤ × String) => tsLe r1.1 r2.1)
        (minuteApartPositives 0 3))).headD []).headD 0) := by
  decide

/-- The upserted pair is a member of the upserted dictionary. -/
theorem mem_dictUpsert (hist : List (String × Snap)) (k : String) (v : Snap) :
    (k, v) ∈ dictUpsert hist k v := by
  unfold dictUpsert
  split_ifs with h
  · rw [List.any_eq_true] at h
    obtain ⟨p, hp, hpk⟩ := h
    simp only [decide_eq_true_eq] at hpk
    exact List.mem_map.mpr ⟨p, hp, by simp [hpk]⟩
  · exact List.mem_append.mpr (Or.inr (by simp))

/-- C9 (amended): the snapshot compute_benchmarks just wrote for post_id
is among the trailing-20 benchmark items whenever the post-write history
holds at most 20 entries (in general the trailing 20 are taken in
key-FIRST-INSERTION order — an overwrite keeps the key's original
position — not in write-recency order). -/
theorem bench_recent_snapshot_included (hist : List (String × Snap))
    (pid : String) (now : ℤ) (kpis : List (String × ℚ))
    (hlen : (dictUpsert hist pid { ts := now, kpis := kpis }).length ≤ 20)
    (hk : kpis ≠ []) :
    kpis ∈ benchItems (dictUpsert hist pid { ts := now, kpis := kpis }) := by
  unfold benchItems
  rw [show (dictUpsert hist pid { ts := now, kpis := kpis }).length - 20 = 0 by omega,
    List.drop_zero]
  apply List.mem_map.mpr
  refine ⟨(pid, { ts := now, kpis := kpis }), ?_, rfl⟩
  apply List.mem_filter.mpr
  exact ⟨mem_dictUpsert hist pid _, by simpa using hk⟩

/-- Witness for C9 at a two-post history. -/
theorem bench_recent_snapshot_included_witness :
    (dictUpsert [("a", ⟨0, [("advocacy", 1)]⟩)] "b" ⟨5, [("advocacy", 2)]⟩).length ≤ 20 ∧
      ([("advocacy", (2 : ℚ))] ≠ []) ∧
      [("advocacy", (2 : ℚ))] ∈
        benchItems (dictUpsert [("a", ⟨0, [("advocacy", 1)]⟩)] "b" ⟨5, [("advocacy", 2)]⟩) :=
  ⟨by decide, by decide,
    bench_recent_snapshot_included [("a", ⟨0, [("advocacy", 1)]⟩)] "b" 5
      [("advocacy", 2)] (by decide) (by decide)⟩

/-- C9 counterexample: with 21 posts in history, re-writing the oldest key
`p0` keeps it at position 0, so the just-written snapshot is NOT among the
trailing-20 items its own percentile ranks are computed against. -/
theorem bench_overwrite_excluded :
    ("p0", freshSnap) ∈ dictUpsert hist21 "p0" freshSnap ∧
      freshSnap.kpis ∉ benchItems (dictUpsert hist21 "p0" freshSnap) := by
  decide

end FB
